import Mathlib

/-!
Verification of the analysis pipeline of the evolutionary-computation repository
(src/analysis/utils.py and src/analysis/generate_report.py) against its
natural-language specification.  The Python data model (run records, node
lists, solution traces, data frames) is embedded shallowly: machine floats
become exact rationals, fallible operations (missing files, IndexError,
ZeroDivisionError) become Option/Except, and pandas frames become explicit
records.  Each definition's doc comment names the source function and lines
it embeds.
-/

/-! ### Name canonicalization (C1)

The repository strips a multi-start suffix from algorithm labels with two
different regular expressions:
an unanchored one, `str.replace(r'_start\d+', '', regex=True)`, used
throughout src/analysis/utils.py (lines 71, 299, 330, 360, 401, 446, 507,
688, 845), and an anchored one, `str.replace(r'_start\d+$', '', regex=True)`,
used in src/analysis/generate_report.py (lines 298 and 334).
Both are embedded below over `List Char`.
-/

/-- The literal character sequence of the regex token `_start`. -/
def startToken : List Char := ['_', 's', 't', 'a', 'r', 't']

/-- The reversal of `startToken`, used when scanning a label from its end. -/
def startTokenR : List Char := ['t', 'r', 'a', 't', 's', '_']

/-- One attempted match of `_start\d+` at the head of `l`, as `re` performs at
each scan position: the literal `_start` followed by a maximal nonempty digit
run (`\d+` is greedy and nothing follows it in the pattern, so the match takes
the whole run).  Returns the remainder after the match, or `none` when the
head of `l` does not match. -/
def matchStartNum (l : List Char) : Option (List Char) :=
  if startToken.isPrefixOf l then
    let t := l.drop 6
    if (t.takeWhile Char.isDigit).isEmpty then none
    else some (t.dropWhile Char.isDigit)
  else none

/-- The left-to-right scan of `re.sub(r'_start\d+', '', label)`: at each
position either remove a match of `_start\d+` and continue after it, or keep
the character and advance by one.  The `fuel` argument only makes the
recursion structural; every removal consumes at least seven characters while
spending one unit of fuel, so fuel equal to the initial length never runs
out and the `0` branch is unreachable. -/
def subStartAllFuel : Nat → List Char → List Char
  | 0, l => l
  | _ + 1, [] => []
  | fuel + 1, c :: cs =>
    match matchStartNum (c :: cs) with
    | some rest => subStartAllFuel fuel rest
    | none => c :: subStartAllFuel fuel cs

/-- Embeds the unanchored canonicalizer
`label.replace(r'_start\d+', '', regex=True)` of src/analysis/utils.py
(line 71 and the `base_algorithm` assignments). -/
def stripMultiStartAll (s : String) : String :=
  String.mk (subStartAllFuel s.data.length s.data)

/-- Decides whether `l` ends with a match of `_start\d+$`: the maximal
trailing digit run is nonempty and is preceded by the literal `_start`.
A match of `_start\d+$` must end at the end of the string and `\d+` cannot
contain the letter `t` that closes `_start`, so the match, when it exists,
is unique and is exactly this suffix. -/
def hasStartNumSuffix (l : List Char) : Bool :=
  !(l.reverse.takeWhile Char.isDigit).isEmpty
    && startTokenR.isPrefixOf (l.reverse.dropWhile Char.isDigit)

/-- Embeds one application of the anchored canonicalizer
`label.replace(r'_start\d+$', '', regex=True)` of
src/analysis/generate_report.py lines 298 and 334: when the label ends with
`_start` followed by one or more digits, that (unique) suffix is removed,
otherwise the label is returned unchanged. -/
def stripEndOnce (l : List Char) : List Char :=
  if hasStartNumSuffix l then ((l.reverse.dropWhile Char.isDigit).drop 6).reverse
  else l

/-- The anchored canonicalizer on `String`. -/
def stripMultiStartEnd (s : String) : String :=
  String.mk (stripEndOnce s.data)

theorem takeWhile_append_of_all {α : Type} {p : α → Bool} :
    ∀ (a b : List α), (∀ c ∈ a, p c = true) →
      (a ++ b).takeWhile p = a ++ b.takeWhile p := by
  intro a b h
  induction a with
  | nil => simp
  | cons x xs ih =>
    have hx : p x = true := h x (by simp)
    simp only [List.cons_append, List.takeWhile_cons, hx, if_true]
    rw [ih (fun c hc => h c (by simp [hc]))]

theorem dropWhile_append_of_all {α : Type} {p : α → Bool} :
    ∀ (a b : List α), (∀ c ∈ a, p c = true) →
      (a ++ b).dropWhile p = b.dropWhile p := by
  intro a b h
  induction a with
  | nil => simp
  | cons x xs ih =>
    have hx : p x = true := h x (by simp)
    simp only [List.cons_append, List.dropWhile_cons, hx, if_true]
    exact ih (fun c hc => h c (by simp [hc]))

theorem isPrefixOf_append_self {α : Type} [DecidableEq α] :
    ∀ (a x : List α), a.isPrefixOf (a ++ x) = true := by
  intro a x
  induction a with
  | nil => simp [List.isPrefixOf]
  | cons c cs ih => simp [List.isPrefixOf, ih]

/-- C1 (amended): the anchored canonicalizer of the report generator strips
exactly one trailing `_start<digits>` suffix per application and returns any
label without such a trailing suffix unchanged; a single application is
idempotent exactly on labels whose stripped form no longer ends in
`_start<digits>`. -/
theorem C1_amended :
    (∀ nm ds : List Char, ds ≠ [] → (∀ c ∈ ds, c.isDigit = true) →
        stripEndOnce (nm ++ startToken ++ ds) = nm)
  ∧ (∀ l : List Char, hasStartNumSuffix l = false → stripEndOnce l = l)
  ∧ (∀ l : List Char, hasStartNumSuffix (stripEndOnce l) = false →
        stripEndOnce (stripEndOnce l) = stripEndOnce l) := by
  have hunchanged : ∀ l : List Char, hasStartNumSuffix l = false → stripEndOnce l = l := by
    intro l h
    simp [stripEndOnce, h]
  refine ⟨?_, hunchanged, fun l h => hunchanged _ h⟩
  intro nm ds hne hdig
  have hrev : (nm ++ startToken ++ ds).reverse
      = ds.reverse ++ (startTokenR ++ nm.reverse) := by
    simp [List.reverse_append, startToken, startTokenR]
  have hdigrev : ∀ c ∈ ds.reverse, Char.isDigit c = true := by
    intro c hc
    exact hdig c (List.mem_reverse.mp hc)
  have htail : (startTokenR ++ nm.reverse).takeWhile Char.isDigit = [] := by
    simp [startTokenR, List.takeWhile_cons]
  have htake : (nm ++ startToken ++ ds).reverse.takeWhile Char.isDigit = ds.reverse := by
    rw [hrev, takeWhile_append_of_all _ _ hdigrev, htail, List.append_nil]
  have hdroptail : (startTokenR ++ nm.reverse).dropWhile Char.isDigit
      = startTokenR ++ nm.reverse := by
    simp [startTokenR, List.dropWhile_cons]
  have hdrop : (nm ++ startToken ++ ds).reverse.dropWhile Char.isDigit
      = startTokenR ++ nm.reverse := by
    rw [hrev, dropWhile_append_of_all _ _ hdigrev, hdroptail]
  have hsfx : hasStartNumSuffix (nm ++ startToken ++ ds) = true := by
    unfold hasStartNumSuffix
    rw [htake, hdrop]
    have h1 : ds.reverse.isEmpty = false := by
      cases hds : ds.reverse with
      | nil => exact absurd (List.reverse_eq_nil_iff.mp hds) hne
      | cons x xs => rfl
    rw [h1, isPrefixOf_append_self]
    rfl
  unfold stripEndOnce
  rw [hsfx, if_pos rfl, hdrop]
  have h6 : (6 : Nat) = startTokenR.length := rfl
  rw [h6, List.drop_left, List.reverse_reverse]

/-- C1 (amended, witness): concrete runs of the anchored canonicalizer from
the amended theorem: `foo_start3` strips to `foo`, and `foo_start3_bar`,
which has no trailing suffix, is unchanged. -/
theorem C1_amended_witness :
    stripEndOnce ("foo".data ++ startToken ++ ['3']) = "foo".data
  ∧ stripEndOnce "foo_start3_bar".data = "foo_start3_bar".data :=
  ⟨C1_amended.1 "foo".data ['3'] (by decide) (by decide),
   C1_amended.2.1 "foo_start3_bar".data (by decide)⟩

/-- C1 (counterexample): the claim fails on the code.  The unanchored
canonicalizer of utils.py rewrites `foo_start3_bar`, which the claim says is
returned unchanged; and neither canonicalizer is idempotent: the anchored one
sends `foo_start1_start2` to `foo_start1` and then to `foo`, and the
unanchored one sends `x_st_start1art5` to `x_start5` and then to `x`. -/
theorem C1_counterexample :
    stripMultiStartAll "foo_start3_bar" ≠ "foo_start3_bar"
  ∧ stripMultiStartEnd (stripMultiStartEnd "foo_start1_start2")
      ≠ stripMultiStartEnd "foo_start1_start2"
  ∧ stripMultiStartAll (stripMultiStartAll "x_st_start1art5")
      ≠ stripMultiStartAll "x_st_start1art5" := by
  decide

/-! ### Data model

One run record of the results JSON (spec section 3, consumed as the rows of
the pandas frame built in `load_algorithm_results`, src/analysis/utils.py
line 67).  Machine floats are embedded as exact rationals.
-/

/-- One per-run record: the columns of the results frame. -/
structure RunRecord where
  algorithm : String
  objective_value : Rat
  path_length : Rat
  node_costs : Rat
  computation_time_ms : Rat
deriving DecidableEq

/-- One node of the visualization payload: `{id, x, y, cost}`. -/
structure PlotNode where
  id : Nat
  x : Rat
  y : Rat
  cost : Rat
deriving DecidableEq

/-- The arithmetic mean, `Series.mean()`: sum divided by length. -/
def meanQ (xs : List Rat) : Rat := xs.sum / (xs.length : Rat)

/-- The sample variance with one delta degree of freedom, the square of
pandas `Series.std()`: the sum of squared deviations from the mean divided
by `n - 1`.  The standard deviation itself is its (irrational) square root,
so comparisons and zero-tests of the std are made through this square. -/
def varS (xs : List Rat) : Rat :=
  ((xs.map (fun x => (x - meanQ xs) ^ 2)).sum) / ((xs.length : Rat) - 1)

/-! ### Node marker sizes (C2) -/

/-- Python's binary `max` on two numbers (kept explicit so that concrete
instances evaluate inside the kernel). -/
def maxQ (a b : Rat) : Rat := if a ≤ b then b else a

/-- Python's binary `min` on two numbers. -/
def minQ (a b : Rat) : Rat := if b ≤ a then b else a

/-- Embeds the node-size computation of `_create_solution_plot`
(src/analysis/generate_report.py lines 118-128) and of `plot_best_solutions`
(src/analysis/utils.py lines 184-200): `max_cost` and `min_cost` are taken
over the whole node list (Python `max`/`min` raise ValueError on an empty
sequence, hence the first `none`), and each node's marker size is
`50 + 200 * (cost - min_cost) / (max_cost - min_cost)`.  Python evaluates
that division literally: when every cost is equal it computes `0 / 0` and
raises ZeroDivisionError before any node is drawn, which is the second
`none` — there is no equal-cost fallback in the code. -/
def nodeSizes (nodes : List PlotNode) : Option (List Rat) :=
  match nodes with
  | [] => none
  | n0 :: rest =>
    let maxCost := (rest.map PlotNode.cost).foldl maxQ n0.cost
    let minCost := (rest.map PlotNode.cost).foldl minQ n0.cost
    if maxCost - minCost = 0 then none
    else some (nodes.map (fun nd => 50 + 200 * (nd.cost - minCost) / (maxCost - minCost)))

set_option maxRecDepth 8000 in
/-- C2 (code bug): with costs `{1, 5, 10}` the rendered marker sizes are
exactly `50`, `50 + 200 * 4 / 9` and `250`, as the claim states; but when
every node cost is equal the code evaluates `0 / 0` and raises
ZeroDivisionError (modelled `none`) instead of producing the floor size 50
that the claim and spec require. -/
theorem C2_node_sizes :
    nodeSizes [⟨0, 0, 0, 1⟩, ⟨1, 1, 1, 5⟩, ⟨2, 2, 2, 10⟩]
      = some [50, 50 + 200 * 4 / 9, 250]
  ∧ nodeSizes [⟨0, 0, 0, 7⟩, ⟨1, 1, 1, 7⟩, ⟨2, 2, 2, 7⟩] = none := by
  with_unfolding_all decide

/-! ### Coefficient of variation (C5)

`export_statistics_summary` (src/analysis/utils.py line 703) computes
`float(algo_data.std() / algo_data.mean() * 100)` with numpy semantics and
`json.dump` then writes the resulting IEEE value (`NaN`, `Infinity`, or a
finite number) verbatim: nothing raises, because the module suppresses
warnings globally (line 20).
-/

/-- The value class of the exported `cv_percent` cell.  `finite stdSq mean`
stands for the finite IEEE value `sqrt stdSq / mean * 100`; the square root
leaves the rationals, so the finite case carries the exact pair instead. -/
inductive CvValue where
  | nan : CvValue
  | posInf : CvValue
  | finite (stdSq mean : Rat) : CvValue
deriving DecidableEq

/-- Embeds `algo_data.std() / algo_data.mean() * 100`
(src/analysis/utils.py line 703) case by case along numpy float semantics:
pandas `std()` (ddof = 1) is NaN for at most one sample, and any arithmetic
on NaN stays NaN; otherwise `std = sqrt (varS xs) ≥ 0`, and a division by a
mean of exactly zero (positive IEEE zero) yields NaN when the std is zero
and +Infinity when it is positive; with a nonzero mean the result is the
finite value represented symbolically by the `(varS, mean)` pair. -/
def cvPercent (xs : List Rat) : CvValue :=
  if xs.length ≤ 1 then CvValue.nan
  else if meanQ xs = 0 then
    (if varS xs = 0 then CvValue.nan else CvValue.posInf)
  else CvValue.finite (varS xs) (meanQ xs)

theorem sum_sq_dev_eq_zero (m : Rat) :
    ∀ l : List Rat, ((l.map (fun x => (x - m) ^ 2)).sum = 0 ↔ ∀ x ∈ l, x = m) := by
  intro l
  induction l with
  | nil => simp
  | cons a t ih =>
    simp only [List.map_cons, List.sum_cons, List.mem_cons]
    have h1 : (0 : Rat) ≤ (a - m) ^ 2 := sq_nonneg _
    have h2 : (0 : Rat) ≤ (t.map (fun x => (x - m) ^ 2)).sum := by
      apply List.sum_nonneg
      intro x hx
      obtain ⟨y, _, rfl⟩ := List.mem_map.mp hx
      exact sq_nonneg _
    rw [add_eq_zero_iff_of_nonneg h1 h2]
    constructor
    · rintro ⟨ha, ht⟩ x (rfl | hx)
      · exact sub_eq_zero.mp ((pow_eq_zero_iff (by norm_num)).mp ha)
      · exact ih.mp ht x hx
    · intro hall
      refine ⟨?_, ih.mpr (fun x hx => hall x (Or.inr hx))⟩
      rw [hall a (Or.inl rfl)]
      simp

/-- C5 (amended): for every series whose mean is zero the exported
`cv_percent` is NaN or +Infinity — never a crash, never any other value —
and it is NaN exactly when the standard deviation is undefined (a single
sample) or zero (an identically zero series); a mean-zero series with
positive spread is reported as +Infinity, not NaN. -/
theorem C5_amended (xs : List Rat) (h : meanQ xs = 0) :
    (cvPercent xs = CvValue.nan ∨ cvPercent xs = CvValue.posInf)
  ∧ (cvPercent xs = CvValue.nan ↔ (xs.length ≤ 1 ∨ ∀ a ∈ xs, a = 0)) := by
  by_cases hlen : xs.length ≤ 1
  · have hv : cvPercent xs = CvValue.nan := by simp [cvPercent, hlen]
    exact ⟨Or.inl hv, by rw [hv]; exact iff_of_true rfl (Or.inl hlen)⟩
  · have hn2 : 2 ≤ xs.length := by omega
    have hden : ((xs.length : Rat) - 1) ≠ 0 := by
      have hc : (2 : Rat) ≤ (xs.length : Rat) := by exact_mod_cast hn2
      intro hz
      rw [sub_eq_zero] at hz
      rw [hz] at hc
      norm_num at hc
    have hvar : varS xs = 0 ↔ ∀ a ∈ xs, a = 0 := by
      unfold varS
      rw [div_eq_zero_iff]
      constructor
      · rintro (hz | hz)
        · intro a ha
          have := (sum_sq_dev_eq_zero (meanQ xs) xs).mp hz a ha
          rwa [h] at this
        · exact absurd hz hden
      · intro hall
        left
        exact (sum_sq_dev_eq_zero _ _).mpr (fun x hx => by rw [h]; exact hall x hx)
    by_cases hv : varS xs = 0
    · have hc : cvPercent xs = CvValue.nan := by simp [cvPercent, hlen, h, hv]
      exact ⟨Or.inl hc, by rw [hc]; exact iff_of_true rfl (Or.inr (hvar.mp hv))⟩
    · have hc : cvPercent xs = CvValue.posInf := by simp [cvPercent, hlen, h, hv]
      refine ⟨Or.inr hc, ?_⟩
      rw [hc]
      apply iff_of_false
      · intro habs
        exact CvValue.noConfusion habs
      · rintro (habs | habs)
        · exact hlen habs
        · exact hv (hvar.mpr habs)

/-- C5 (amended, witness): the series `[-1, 1]` has mean zero and positive
spread; its exported coefficient of variation is +Infinity (in particular
the disjunction of the amended theorem holds, on its right side). -/
theorem C5_amended_witness :
    (cvPercent [-1, 1] = CvValue.nan ∨ cvPercent [-1, 1] = CvValue.posInf)
  ∧ (cvPercent [-1, 1] = CvValue.nan ↔ (([-1, 1] : List Rat).length ≤ 1 ∨ ∀ a ∈ ([-1, 1] : List Rat), a = 0)) :=
  C5_amended [-1, 1] (by with_unfolding_all decide)

/-- C5 (counterexample): the mean-zero series `[-1, 1]` is reported as
+Infinity, while the claim requires every mean-zero series to be reported
as NaN. -/
theorem C5_counterexample :
    cvPercent [-1, 1] = CvValue.posInf ∧ CvValue.posInf ≠ CvValue.nan := by
  exact ⟨by with_unfolding_all decide, by decide⟩

/-! ### Grouping and performance ranking (C4)

`create_performance_ranking` (src/analysis/utils.py lines 431-490) canonicalizes
labels, groups the frame by `base_algorithm`, computes one statistics row per
group, sorts the rows of one instance by `Mean_Objective` only, and assigns
ranks 1..n in sorted order.
-/

def uniqueFirstAux (seen : List String) : List String → List String
  | [] => []
  | x :: xs => if x ∈ seen then uniqueFirstAux seen xs else x :: uniqueFirstAux (x :: seen) xs

/-- pandas `Series.unique()`: the distinct values in order of first
appearance (src/analysis/utils.py line 448). -/
def uniqueFirst (l : List String) : List String := uniqueFirstAux [] l

/-- The `base_algorithm` value of one run: the unanchored canonicalizer
applied to its label (src/analysis/utils.py line 446). -/
def baseAlgorithm (r : RunRecord) : String := stripMultiStartAll r.algorithm

/-- The `objective_value` column of the group
`df_analysis[df_analysis['base_algorithm'] == algorithm]`. -/
def objValuesFor (rows : List RunRecord) (a : String) : List Rat :=
  (rows.filter (fun r => baseAlgorithm r == a)).map RunRecord.objective_value

/-- The `computation_time_ms` column of the same group. -/
def timeValuesFor (rows : List RunRecord) (a : String) : List Rat :=
  (rows.filter (fun r => baseAlgorithm r == a)).map RunRecord.computation_time_ms

/-- `Series.min()` folded over a (nonempty in practice) value list. -/
def minQD (xs : List Rat) : Rat :=
  match xs with
  | [] => 0
  | h :: t => t.foldl minQ h

/-- `Series.max()` folded over a value list. -/
def maxQD (xs : List Rat) : Rat :=
  match xs with
  | [] => 0
  | h :: t => t.foldl maxQ h

/-- One row of the ranking frame built at src/analysis/utils.py lines
451-461.  `var_objective` is the square of the source's `Std_Objective`
(pandas `std()`, ddof = 1): the square root is irrational, and every
comparison of standard deviations is equivalent to the comparison of these
squares. -/
structure RankRow where
  algorithm : String
  mean_objective : Rat
  var_objective : Rat
  best_objective : Rat
  worst_objective : Rat
  mean_time_ms : Rat
  runs : Nat
deriving DecidableEq

/-- The statistics row of one canonical algorithm. -/
def statsRowFor (rows : List RunRecord) (a : String) : RankRow :=
  { algorithm := a
    mean_objective := meanQ (objValuesFor rows a)
    var_objective := varS (objValuesFor rows a)
    best_objective := minQD (objValuesFor rows a)
    worst_objective := maxQD (objValuesFor rows a)
    mean_time_ms := meanQ (timeValuesFor rows a)
    runs := (objValuesFor rows a).length }

/-- The unsorted ranking rows of one instance, one per canonical algorithm
in first-appearance order (the iteration order of
`df_analysis['base_algorithm'].unique()`). -/
def statsRows (rows : List RunRecord) : List RankRow :=
  (uniqueFirst (rows.map baseAlgorithm)).map (statsRowFor rows)

/-- The sort key of `instance_ranking.sort_values('Mean_Objective')`
(src/analysis/utils.py line 472): the mean objective alone. -/
def rowLe (a b : RankRow) : Prop := a.mean_objective ≤ b.mean_objective

instance : DecidableRel rowLe :=
  fun a b => inferInstanceAs (Decidable (a.mean_objective ≤ b.mean_objective))

instance : IsTotal RankRow rowLe := ⟨fun a b => le_total a.mean_objective b.mean_objective⟩

instance : IsTrans RankRow rowLe := ⟨fun _ _ _ h1 h2 => le_trans h1 h2⟩

/-- `sort_values('Mean_Objective')`: a stable sort by mean objective.
(numpy's default sort falls back to a stable insertion sort on the small
per-instance row counts arising here, so tied rows keep their
first-appearance order.) -/
def sortRows (l : List RankRow) : List RankRow := List.insertionSort rowLe l

/-- `instance_ranking['Rank'] = range(1, len(instance_ranking) + 1)`
(src/analysis/utils.py line 473): attach consecutive ranks. -/
def withRanks : Nat → List RankRow → List (Nat × RankRow)
  | _, [] => []
  | k, x :: xs => (k, x) :: withRanks (k + 1) xs

/-- The displayed ranking of one instance: statistics rows sorted by mean
objective with ranks 1..n attached. -/
def rankedRows (rows : List RunRecord) : List (Nat × RankRow) :=
  withRanks 1 (sortRows (statsRows rows))

theorem withRanks_map_snd : ∀ (k : Nat) (l : List RankRow),
    (withRanks k l).map Prod.snd = l := by
  intro k l
  induction l generalizing k with
  | nil => rfl
  | cons x xs ih => simp [withRanks, ih]

theorem withRanks_map_fst : ∀ (k : Nat) (l : List RankRow),
    (withRanks k l).map Prod.fst = List.range' k l.length := by
  intro k l
  induction l generalizing k with
  | nil => rfl
  | cons x xs ih => simp [withRanks, ih, List.range']

/-- C4 (amended): the performance ranking of an instance is a deterministic
permutation of the per-algorithm statistics rows, sorted ascending by mean
objective value, with ranks 1..n assigned in sorted order (rank 1 is the
best mean).  No further tie-breaking is applied: equal means keep their
first-appearance order, as the counterexample shows, rather than being
reordered by standard deviation or name. -/
theorem C4_amended (rows : List RunRecord) :
    List.Perm ((rankedRows rows).map Prod.snd) (statsRows rows)
  ∧ List.Sorted rowLe ((rankedRows rows).map Prod.snd)
  ∧ (rankedRows rows).map Prod.fst = List.range' 1 (statsRows rows).length := by
  unfold rankedRows sortRows
  refine ⟨?_, ?_, ?_⟩
  · rw [withRanks_map_snd]
    exact List.perm_insertionSort rowLe _
  · rw [withRanks_map_snd]
    exact List.sorted_insertionSort rowLe _
  · rw [withRanks_map_fst]
    congr 1
    exact (List.perm_insertionSort rowLe _).length_eq

/-- The C4 counterexample data: algorithm `b` (objectives 6 and 14, sample
variance 32) appears in the data before algorithm `a` (objectives 9 and 11,
sample variance 2); both have mean 10. -/
def c4Rows : List RunRecord :=
  [⟨"b", 6, 0, 0, 1⟩, ⟨"b", 14, 0, 0, 1⟩, ⟨"a", 9, 0, 0, 1⟩, ⟨"a", 11, 0, 0, 1⟩]

set_option maxRecDepth 16000 in
/-- C4 (counterexample): two algorithms with equal mean objectives are ranked
in first-appearance order `b, a` although `b` has the strictly larger
standard deviation (variance 32 versus 2) — the claimed ascending-standard-
deviation tie-break would have to rank `a` first, and the claimed
lexicographic fallback would too. -/
theorem C4_counterexample :
    (rankedRows c4Rows).map (fun p => p.2.algorithm) = ["b", "a"]
  ∧ (rankedRows c4Rows).map (fun p => p.2.mean_objective) = [10, 10]
  ∧ (rankedRows c4Rows).map (fun p => p.2.var_objective) = [32, 2] := by
  with_unfolding_all decide

/-! ### Frame effects of downstream components (C3)

Downstream normalization assigns a `base_algorithm` column.  Most operations
do so on `df.copy()`; `export_statistics_summary` (src/analysis/utils.py
lines 687-688) and `_create_and_save_performance_plot` (lines 844-845)
assign the column directly on the stored `instance_data['df']`.
-/

/-- The pandas frame of one instance as its owner holds it: the loaded
record columns plus the optional `base_algorithm` column that normalization
steps may have assigned.  `load_algorithm_results` builds it without that
column. -/
structure ResultsFrame where
  records : List RunRecord
  base_algorithm : Option (List String)
deriving DecidableEq

/-- The column assignment
`df['base_algorithm'] = df['algorithm'].str.replace(r'_start\d+', '', regex=True)`
applied to whichever frame object the statement's `df` names. -/
def addBaseColumn (df : ResultsFrame) : ResultsFrame :=
  { df with base_algorithm := some (df.records.map baseAlgorithm) }

/-- Caller-visible state of `instance_data['df']` after
`export_statistics_summary` (src/analysis/utils.py lines 687-688): the
stored frame itself receives the `base_algorithm` column — the function
takes no `.copy()`. -/
def dfAfter_export_statistics_summary (df : ResultsFrame) : ResultsFrame :=
  addBaseColumn df

/-- Caller-visible state of `instance_data['df']` after
`_create_and_save_performance_plot` (src/analysis/utils.py lines 844-845):
the same in-place column assignment, again with no `.copy()`. -/
def dfAfter_performance_plot (df : ResultsFrame) : ResultsFrame :=
  addBaseColumn df

/-- `create_performance_ranking` (src/analysis/utils.py line 445) copies the
stored frame (`df_analysis = df.copy()`) before normalizing, so the caller's
frame is returned unchanged next to the computed ranking. -/
def create_performance_ranking_effect (df : ResultsFrame) : ResultsFrame × List (Nat × RankRow) :=
  (df, rankedRows df.records)

/-- `perform_statistical_analysis` (src/analysis/utils.py lines 506-507) also
normalizes on a copy: the pair is (caller's unchanged frame, the internal
working copy that received the column). -/
def perform_statistical_analysis_effect (df : ResultsFrame) : ResultsFrame × ResultsFrame :=
  (df, addBaseColumn ⟨df.records, df.base_algorithm⟩)

/-- `_generate_objective_table` (src/analysis/generate_report.py lines
295-298) copies the frame and then rewrites the copy's `algorithm` column
with the anchored canonicalizer; the caller's frame is unchanged. -/
def generate_objective_table_effect (df : ResultsFrame) : ResultsFrame × ResultsFrame :=
  (df,
   ⟨df.records.map (fun r => { r with algorithm := stripMultiStartEnd r.algorithm }),
    df.base_algorithm⟩)

/-- C3 (amended): ranking, statistical analysis and table generation leave
the caller's frame untouched (they normalize on defensive copies), but
`export_statistics_summary` and `_create_and_save_performance_plot` mutate
the stored frame in place by assigning a `base_algorithm` column; the
mutation adds that one column and leaves the loaded record columns
unchanged. -/
theorem C3_amended (df : ResultsFrame) :
    (create_performance_ranking_effect df).1 = df
  ∧ (perform_statistical_analysis_effect df).1 = df
  ∧ (generate_objective_table_effect df).1 = df
  ∧ (dfAfter_export_statistics_summary df).records = df.records
  ∧ (dfAfter_export_statistics_summary df).base_algorithm
      = some (df.records.map baseAlgorithm)
  ∧ dfAfter_performance_plot df = dfAfter_export_statistics_summary df :=
  ⟨rfl, rfl, rfl, rfl, rfl, rfl⟩

/-- The C3 counterexample frame: one freshly loaded record, no
`base_algorithm` column yet. -/
def c3Frame : ResultsFrame := ⟨[⟨"greedy_start1", 100, 80, 20, 5⟩], none⟩

/-- C3 (counterexample): after `export_statistics_summary` the caller's
stored frame has gained a `base_algorithm` column — the dataset held by the
caller is not unchanged, refuting the claim that every normalization works
on a defensive copy. -/
theorem C3_counterexample :
    dfAfter_export_statistics_summary c3Frame ≠ c3Frame := by
  intro h
  exact Option.noConfusion (congrArg ResultsFrame.base_algorithm h)

/-! ### Improvement over the best algorithm (C8)

`perform_statistical_analysis` (src/analysis/utils.py lines 535-542) sorts
the per-algorithm mean objectives ascending, takes the first as the best,
and prints for every other algorithm
`improvement = ((mean_val - best_mean) / mean_val) * 100`.
-/

/-- The per-algorithm mean objective series of
`df_analysis.groupby('base_algorithm')['objective_value'].mean()`
(src/analysis/utils.py line 535), keyed in first-appearance order. -/
def algoMeans (rows : List RunRecord) : List (String × Rat) :=
  (uniqueFirst (rows.map baseAlgorithm)).map (fun a => (a, meanQ (objValuesFor rows a)))

/-- The sort key of `algo_means.sort_values()`: the mean value. -/
def pairLe (a b : String × Rat) : Prop := a.2 ≤ b.2

instance : DecidableRel pairLe := fun a b => inferInstanceAs (Decidable (a.2 ≤ b.2))

instance : IsTotal (String × Rat) pairLe := ⟨fun a b => le_total a.2 b.2⟩

instance : IsTrans (String × Rat) pairLe := ⟨fun _ _ _ h1 h2 => le_trans h1 h2⟩

/-- `algo_means.sort_values()`: the mean series sorted ascending (stable). -/
def sortedAlgoMeans (rows : List RunRecord) : List (String × Rat) :=
  List.insertionSort pairLe (algoMeans rows)

/-- `best_mean = algo_means.iloc[0]` after sorting
(src/analysis/utils.py line 536). -/
def bestMeanVal (rows : List RunRecord) : Rat :=
  match sortedAlgoMeans rows with
  | [] => 0
  | best :: _ => best.2

/-- The improvement loop over `algo_means.iloc[1:]`
(src/analysis/utils.py lines 540-542): for every non-best algorithm the
printed percentage is `((mean_val - best_mean) / mean_val) * 100`. -/
def improvementOverBest (rows : List RunRecord) : List (String × Rat) :=
  match sortedAlgoMeans rows with
  | [] => []
  | best :: rest => rest.map (fun p => (p.1, (p.2 - best.2) / p.2 * 100))

/-- C8 (confirmed): every non-best algorithm's improvement percentage equals
`(own mean - best mean) / own mean * 100` — the divisor is the weaker
algorithm's own mean — where the best mean is a lower bound of all the
per-algorithm means. -/
theorem C8_improvement (rows : List RunRecord) (p : String × Rat)
    (hp : p ∈ improvementOverBest rows) :
    (∃ m, ((p.1, m) ∈ algoMeans rows) ∧ p.2 = (m - bestMeanVal rows) / m * 100)
  ∧ ∀ q ∈ algoMeans rows, bestMeanVal rows ≤ q.2 := by
  have hperm : List.Perm (sortedAlgoMeans rows) (algoMeans rows) :=
    List.perm_insertionSort pairLe (algoMeans rows)
  have hsorted : List.Sorted pairLe (sortedAlgoMeans rows) :=
    List.sorted_insertionSort pairLe (algoMeans rows)
  unfold improvementOverBest at hp
  cases hs : sortedAlgoMeans rows with
  | nil =>
    rw [hs] at hp
    exact absurd hp (List.not_mem_nil p)
  | cons best rest =>
    rw [hs] at hp hperm hsorted
    have hbm : bestMeanVal rows = best.2 := by
      unfold bestMeanVal
      rw [hs]
    obtain ⟨q, hq, rfl⟩ := List.mem_map.mp hp
    have hle : ∀ x ∈ rest, pairLe best x := (List.pairwise_cons.mp hsorted).1
    constructor
    · exact ⟨q.2, hperm.subset (List.mem_cons_of_mem best hq), by rw [hbm]⟩
    · intro x hx
      rw [hbm]
      rcases List.mem_cons.mp (hperm.mem_iff.mpr hx) with hxb | hxr
      · rw [hxb]
      · exact hle x hxr

/-- The end-to-end scenario of the spec (section 8): two multi-start greedy
runs with mean 95 and one regret run with mean 110. -/
def c8Rows : List RunRecord :=
  [⟨"greedy_start1", 100, 80, 20, 5⟩, ⟨"greedy_start2", 90, 70, 20, 6⟩,
   ⟨"regret", 110, 90, 20, 7⟩]

set_option maxRecDepth 16000 in
/-- C8 (witness): on the spec's end-to-end scenario the only non-best
algorithm is `regret`; its improvement is `(110 - 95) / 110 * 100 = 150/11`,
divided by its own mean, and the best mean 95 bounds all means from below. -/
theorem C8_witness :
    (∃ m, (("regret", m) ∈ algoMeans c8Rows)
        ∧ (150 / 11 : Rat) = (m - bestMeanVal c8Rows) / m * 100)
  ∧ ∀ q ∈ algoMeans c8Rows, bestMeanVal c8Rows ≤ q.2 :=
  C8_improvement c8Rows ("regret", 150 / 11) (by with_unfolding_all decide)

/-! ### Loading per-instance results (C6)

`load_algorithm_results` (src/analysis/utils.py lines 32-74) returns the
triple `(None, None, None)` with a printed diagnostic when the required
results file is absent; `load_all_algorithm_results` (lines 77-102) skips
such instances and keeps the rest; `TSPReportGenerator.__init__`
(src/analysis/generate_report.py lines 60-66) raises `ValueError` exactly
when the resulting mapping is empty.
-/

/-- One best-found solution of the visualization payload (spec section 3). -/
structure SolutionTrace where
  route : List Nat
  selected_nodes : List Nat
  objective_value : Rat
  path_length : Rat
  node_costs : Rat
  is_validated : Bool
  validation_report : String
deriving DecidableEq

/-- The optional visualization payload `{nodes, best_solutions}`. -/
structure VizData where
  nodes : List PlotNode
  best_solutions : List (String × SolutionTrace)
deriving DecidableEq

/-- One entry of the optional summary digest (spec section 6). -/
structure AlgoDigest where
  total_runs : Nat
  min_objective : Rat
  max_objective : Rat
  avg_objective : Rat
  best_solution_validated : Bool
deriving DecidableEq

/-- The optional summary digest `{algorithm_statistics}`. -/
structure SummaryData where
  algorithm_statistics : List (String × AlgoDigest)
deriving DecidableEq

/-- The file system visible to the loader: each kind of source file, mapped
from its path to its parsed content when the file exists. -/
structure ResultsStore where
  resultsFiles : String → Option (List RunRecord)
  vizFiles : String → Option VizData
  summaryFiles : String → Option SummaryData

/-- `RESULTS_PATH / algorithm_folder / f"{instance_name}_{algorithm_folder}_results.json"`
(src/analysis/utils.py line 43). -/
def resultsPathFor (instanceName folder : String) : String :=
  "results/" ++ folder ++ "/" ++ instanceName ++ "_" ++ folder ++ "_results.json"

/-- `f"{instance_name}_visualization.json"` (line 44). -/
def vizPathFor (instanceName folder : String) : String :=
  "results/" ++ folder ++ "/" ++ instanceName ++ "_visualization.json"

/-- `f"{instance_name}_summary.json"` (line 45). -/
def summaryPathFor (instanceName folder : String) : String :=
  "results/" ++ folder ++ "/" ++ instanceName ++ "_summary.json"

/-- `load_algorithm_results` (src/analysis/utils.py lines 32-74): when the
required results file is absent the function prints a diagnostic and
returns the `(None, None, None)` triple; otherwise it returns the records
together with the independently optional visualization and summary data. -/
def load_algorithm_results (store : ResultsStore) (instanceName folder : String) :
    Option (List RunRecord) × Option VizData × Option SummaryData :=
  match store.resultsFiles (resultsPathFor instanceName folder) with
  | none => (none, none, none)
  | some recs =>
    (some recs, store.vizFiles (vizPathFor instanceName folder),
     store.summaryFiles (summaryPathFor instanceName folder))

/-- The per-instance value of the `all_data` mapping
(src/analysis/utils.py lines 96-100). -/
structure InstanceData where
  df : List RunRecord
  viz_data : Option VizData
  summary_data : Option SummaryData
deriving DecidableEq

/-- `load_all_algorithm_results` (src/analysis/utils.py lines 77-102): each
instance is loaded independently and only those with a present results file
(`df is not None`) enter the mapping, in request order. -/
def load_all_algorithm_results (store : ResultsStore) (folder : String)
    (instances : List String) : List (String × InstanceData) :=
  instances.filterMap (fun i =>
    match load_algorithm_results store i folder with
    | (some df, viz, summ) => some (i, ⟨df, viz, summ⟩)
    | (none, _, _) => none)

/-- `TSPReportGenerator.__init__` (src/analysis/generate_report.py lines
60-66): load everything, then `raise ValueError(...)` exactly when the
loaded mapping is empty. -/
def tspReportGeneratorInit (store : ResultsStore) (folder : String)
    (instances : List String) : Except String (List (String × InstanceData)) :=
  let d := load_all_algorithm_results store folder instances
  if d.isEmpty then Except.error ("No data found for algorithm folder: " ++ folder)
  else Except.ok d

/-- C6 (confirmed): an absent results file makes the loader return the
`(None, None, None)` triple (and conversely); the batch keeps exactly the
requested instances whose results file is present, in order; and the
top-level generator raises its fatal configuration error precisely when
every requested instance's results file is absent, i.e. when the loaded
mapping is empty. -/
theorem C6_loader (store : ResultsStore) (folder : String) (instances : List String) :
    (∀ i : String, load_algorithm_results store i folder = (none, none, none)
        ↔ store.resultsFiles (resultsPathFor i folder) = none)
  ∧ (load_all_algorithm_results store folder instances).map Prod.fst
      = instances.filter (fun i => (store.resultsFiles (resultsPathFor i folder)).isSome)
  ∧ (tspReportGeneratorInit store folder instances
        = Except.error ("No data found for algorithm folder: " ++ folder)
      ↔ ∀ i ∈ instances, store.resultsFiles (resultsPathFor i folder) = none) := by
  have habsent : ∀ i : String, load_algorithm_results store i folder = (none, none, none)
      ↔ store.resultsFiles (resultsPathFor i folder) = none := by
    intro i
    constructor
    · intro h
      cases hc : store.resultsFiles (resultsPathFor i folder) with
      | none => rfl
      | some recs => simp [load_algorithm_results, hc] at h
    · intro h
      simp [load_algorithm_results, h]
  have hmap : (load_all_algorithm_results store folder instances).map Prod.fst
      = instances.filter (fun i => (store.resultsFiles (resultsPathFor i folder)).isSome) := by
    induction instances with
    | nil => rfl
    | cons i is ih =>
      cases hc : store.resultsFiles (resultsPathFor i folder) with
      | none =>
        simp only [load_all_algorithm_results, List.filterMap_cons,
          load_algorithm_results, hc, List.filter_cons] at *
        simpa [hc] using ih
      | some recs =>
        simp only [load_all_algorithm_results, List.filterMap_cons,
          load_algorithm_results, hc, List.filter_cons] at *
        simpa [hc] using ih
  refine ⟨habsent, hmap, ?_⟩
  constructor
  · intro h i hi
    by_contra hne
    have hsome : (store.resultsFiles (resultsPathFor i folder)).isSome = true := by
      cases hc : store.resultsFiles (resultsPathFor i folder) with
      | none => exact absurd hc hne
      | some recs => rfl
    have hmem : i ∈ instances.filter
        (fun j => (store.resultsFiles (resultsPathFor j folder)).isSome) :=
      List.mem_filter.mpr ⟨hi, hsome⟩
    rw [← hmap] at hmem
    have hne2 : load_all_algorithm_results store folder instances ≠ [] := by
      intro hz
      rw [hz] at hmem
      exact absurd hmem (List.not_mem_nil i)
    have hemp : (load_all_algorithm_results store folder instances).isEmpty = false := by
      cases hd : load_all_algorithm_results store folder instances with
      | nil => exact absurd hd hne2
      | cons x xs => rfl
    have hok : tspReportGeneratorInit store folder instances
        = Except.ok (load_all_algorithm_results store folder instances) := by
      simp [tspReportGeneratorInit, hemp]
    rw [hok] at h
    exact Except.noConfusion h
  · intro h
    have hfe : instances.filter
        (fun j => (store.resultsFiles (resultsPathFor j folder)).isSome) = [] := by
      rw [List.filter_eq_nil_iff]
      intro a ha
      rw [h a ha]
      simp
    have hnil : load_all_algorithm_results store folder instances = [] := by
      have := hmap
      rw [hfe] at this
      exact List.map_eq_nil_iff.mp this
    simp [tspReportGeneratorInit, hnil]

/-! ### Objective comparison table (C7)

`_generate_objective_table` (src/analysis/generate_report.py lines 289-323)
canonicalizes labels on a copy, collects per-(algorithm, instance) cell
strings into `algorithm_stats`, and renders one row per algorithm with
`algorithm_stats[algorithm].get(instance, "N/A")` for each requested
instance column.
-/

/-- Fixed-point rendering of a rational with two decimals, `f"{x:.2f}"`,
with the cents rounded to the nearest integer. -/
def fmt2 (q : Rat) : String :=
  let sgn := if q < 0 then "-" else ""
  let cents : Int := round ((if q < 0 then -q else q) * 100)
  let whole := cents / 100
  let r := (cents % 100).toNat
  sgn ++ toString whole ++ "." ++ (if r < 10 then "0" ++ toString r else toString r)

/-- The objective cell string
`f"{mean:.2f} ({min_val:.2f} - {max_val:.2f})"`
(src/analysis/generate_report.py line 310). -/
def fmtObjectiveCell (mean minV maxV : Rat) : String :=
  fmt2 mean ++ " (" ++ fmt2 minV ++ " - " ++ fmt2 maxV ++ ")"

/-- Whether the assembler received data for the (instance, algorithm) pair:
the instance was loaded and its frame holds a run whose canonical label is
the algorithm. -/
def receivedB (data : List (String × InstanceData)) (instanceName algo : String) : Bool :=
  match List.lookup instanceName data with
  | none => false
  | some idata => idata.df.any (fun r => stripMultiStartEnd r.algorithm == algo)

/-- The table cell `algorithm_stats[algorithm].get(instance_name, "N/A")`
(src/analysis/generate_report.py lines 301-320): `algorithm_stats[a]` holds
an entry for an instance exactly when that instance's loaded frame has runs
with canonical label `a` (the group the cell's mean/min/max are computed
over); every other (algorithm, instance) pair renders the literal `"N/A"`. -/
def objectiveCell (data : List (String × InstanceData)) (algo instanceName : String) : String :=
  match List.lookup instanceName data with
  | none => "N/A"
  | some idata =>
    if (idata.df.filter (fun r => stripMultiStartEnd r.algorithm == algo)).isEmpty then "N/A"
    else
      fmtObjectiveCell
        (meanQ ((idata.df.filter (fun r => stripMultiStartEnd r.algorithm == algo)).map
          RunRecord.objective_value))
        (minQD ((idata.df.filter (fun r => stripMultiStartEnd r.algorithm == algo)).map
          RunRecord.objective_value))
        (maxQD ((idata.df.filter (fun r => stripMultiStartEnd r.algorithm == algo)).map
          RunRecord.objective_value))

/-- Lexicographic comparison of character lists (Python string `<=` on code
points), driving `sorted(algorithm_stats.keys())`. -/
def strLeB : List Char → List Char → Bool
  | [], _ => true
  | _ :: _, [] => false
  | a :: as, b :: bs => if a < b then true else if b < a then false else strLeB as bs

/-- The row order relation of the table: lexicographic on labels. -/
def strLe (s t : String) : Prop := strLeB s.data t.data = true

instance : DecidableRel strLe :=
  fun s t => inferInstanceAs (Decidable (strLeB s.data t.data = true))

/-- `sorted(algorithm_stats.keys())` (src/analysis/generate_report.py line
317): every canonical algorithm name occurring in any loaded instance,
sorted lexicographically. -/
def tableAlgos (data : List (String × InstanceData)) : List String :=
  List.insertionSort strLe
    (uniqueFirst ((data.map (fun p => p.2.df.map
      (fun r => stripMultiStartEnd r.algorithm))).flatten))

/-- `"| " + " | ".join(cells) + " |"` (line 321). -/
def mkTableRow (cells : List String) : String :=
  "| " ++ String.intercalate " | " cells ++ " |"

/-- The rendered lines of the objective table (lines 313-323): a header of
the requested instance names, the separator, and one row per algorithm with
one cell per requested instance. -/
def objectiveTableLines (data : List (String × InstanceData))
    (instances : List String) : List String :=
  mkTableRow ("Algorithm" :: instances)
    :: ("|" ++ String.intercalate "|" (List.replicate (instances.length + 1) "---") ++ "|")
    :: (tableAlgos data).map
        (fun a => mkTableRow (a :: instances.map (fun i => objectiveCell data a i)))

theorem fmtObjectiveCell_ne_na (a b c : Rat) : fmtObjectiveCell a b c ≠ "N/A" := by
  intro h
  have hlen : (fmtObjectiveCell a b c).length = ("N/A" : String).length :=
    congrArg String.length h
  have hna : ("N/A" : String).length = 3 := rfl
  have h2 : (" (" : String).length = 2 := rfl
  have h3 : (" - " : String).length = 3 := rfl
  have h4 : (")" : String).length = 1 := rfl
  rw [hna] at hlen
  unfold fmtObjectiveCell at hlen
  simp only [String.length_append] at hlen
  rw [h2, h3, h4] at hlen
  omega

/-- The data of the claim's concrete scenario: only `TSPA` was loaded, with
two multi-start greedy runs (objective values 100 and 90). -/
def c7Data : List (String × InstanceData) :=
  [("TSPA",
    ⟨[⟨"greedy_start1", 100, 80, 20, 5⟩, ⟨"greedy_start2", 90, 70, 20, 6⟩],
     none, none⟩)]

set_option maxRecDepth 16000 in
/-- C7 (confirmed): a table cell is the literal `"N/A"` exactly when the
assembler received no data for its (algorithm, instance) pair — absence is
always explicit, and a non-`"N/A"` cell is never fabricated for a pair
without data; in the claim's concrete scenario (instances `TSPA, TSPB`
requested, data only for `TSPA`) the table has both instance columns and
every `TSPB` cell is `"N/A"`. -/
theorem C7_na_policy :
    (∀ (data : List (String × InstanceData)) (algo inst : String),
        objectiveCell data algo inst = "N/A" ↔ receivedB data inst algo = false)
  ∧ objectiveTableLines c7Data ["TSPA", "TSPB"]
      = ["| Algorithm | TSPA | TSPB |", "|---|---|---|",
         "| greedy | 95.00 (90.00 - 100.00) | N/A |"] := by
  constructor
  · intro data algo inst
    cases hl : List.lookup inst data with
    | none => simp [objectiveCell, receivedB, hl]
    | some idata =>
      cases ha : idata.df.any (fun r => stripMultiStartEnd r.algorithm == algo) with
      | false =>
        have hfil : idata.df.filter (fun r => stripMultiStartEnd r.algorithm == algo) = [] := by
          rw [List.filter_eq_nil_iff]
          intro r hr
          simpa using List.any_eq_false.mp ha r hr
        simp [objectiveCell, receivedB, hl, hfil, ha]
      | true =>
        obtain ⟨r, hr, hpr⟩ := List.any_eq_true.mp ha
        cases hf : idata.df.filter (fun r => stripMultiStartEnd r.algorithm == algo) with
        | nil =>
          have hmem : r ∈ idata.df.filter (fun r => stripMultiStartEnd r.algorithm == algo) :=
            List.mem_filter.mpr ⟨hr, hpr⟩
          rw [hf] at hmem
          exact absurd hmem (List.not_mem_nil r)
        | cons x xs =>
          simp [objectiveCell, receivedB, hl, hf, ha, fmtObjectiveCell_ne_na]
  · with_unfolding_all decide

/-! ### Route closure and direction arrows (C9)

`_create_solution_plot` (src/analysis/generate_report.py lines 150-165):
`route_coords` lists the route's node coordinates, the first is appended
again to close the cycle, the polyline is drawn through the closed list,
and for `i in range(len(route))` one arrow is annotated along the segment
from `route_coords[i]` to `route_coords[i + 1]`.
-/

/-- The closed polyline at the level of node ids:
`route_coords.append(route_coords[0])` (line 152).  On an empty route the
index `[0]` raises IndexError, modelled `none`. -/
def closedRouteIds (route : List Nat) : Option (List Nat) :=
  match route with
  | [] => none
  | h :: _ => some (route ++ [h])

/-- The arrow loop (lines 160-165): the i-th arrow follows the edge from the
i-th to the (i+1)-th entry of the closed list, for `i in range(len(route))`:
exactly the adjacent pairs of the closed list. -/
def arrowEdgeIds (route : List Nat) : Option (List (Nat × Nat)) :=
  (closedRouteIds route).map (fun cr => cr.zip cr.tail)

/-- One `annotate` call (lines 163-165): the drawn arrow runs from
`(x1 + 0.3 dx, y1 + 0.3 dy)` to `(x1 + 0.7 dx, y1 + 0.7 dy)` along the edge
from `p` to `q`. -/
def arrowSegment (p q : Rat × Rat) : (Rat × Rat) × (Rat × Rat) :=
  ((p.1 + 3 / 10 * (q.1 - p.1), p.2 + 3 / 10 * (q.2 - p.2)),
   (p.1 + 7 / 10 * (q.1 - p.1), p.2 + 7 / 10 * (q.2 - p.2)))

/-- The midpoint of a segment. -/
def midPoint (p q : Rat × Rat) : Rat × Rat := ((p.1 + q.1) / 2, (p.2 + q.2) / 2)

/-- C9 (confirmed): for a nonempty route the rendered closed path is the
route followed by its first node again; the arrows are exactly the adjacent
pairs of that closed path — the route edges plus the closing edge back to
the first node — so their number equals the number of route nodes; and each
drawn arrow is centred on the midpoint of its edge. -/
theorem C9_route (route : List Nat) (h : route ≠ []) :
    closedRouteIds route = some (route ++ [route.head h])
  ∧ arrowEdgeIds route = some (route.zip (route.tail ++ [route.head h]))
  ∧ (route.zip (route.tail ++ [route.head h])).length = route.length
  ∧ ∀ p q : Rat × Rat, midPoint (arrowSegment p q).1 (arrowSegment p q).2 = midPoint p q := by
  obtain ⟨hh, t, rfl⟩ : ∃ hh t, route = hh :: t := by
    cases route with
    | nil => exact absurd rfl h
    | cons a b => exact ⟨a, b, rfl⟩
  refine ⟨rfl, ?_, ?_, ?_⟩
  · show some (((hh :: t) ++ [hh]).zip (((hh :: t) ++ [hh]).tail))
      = some ((hh :: t).zip (t ++ [hh]))
    congr 1
    have hlen : (hh :: t).length = (t ++ [hh]).length := by simp
    calc ((hh :: t) ++ [hh]).zip (((hh :: t) ++ [hh]).tail)
        = ((hh :: t) ++ [hh]).zip ((t ++ [hh]) ++ []) := by simp
      _ = (hh :: t).zip (t ++ [hh]) ++ ([hh].zip ([] : List Nat)) := List.zip_append hlen
      _ = (hh :: t).zip (t ++ [hh]) := by simp
  · simp [List.length_zip]
  · intro p q
    simp only [Prod.ext_iff, midPoint, arrowSegment]
    constructor
    · ring
    · ring

/-- C9 (witness): the route `[3, 7, 9]` renders the closed path
`3 → 7 → 9 → 3` with exactly three arrows, one per edge of the closed
cycle including the closing edge `(9, 3)`. -/
theorem C9_witness :
    closedRouteIds [3, 7, 9] = some [3, 7, 9, 3]
  ∧ arrowEdgeIds [3, 7, 9] = some [(3, 7), (7, 9), (9, 3)] := by
  have h := C9_route [3, 7, 9] (by decide)
  exact ⟨by simpa using h.1, by simpa using h.2.1⟩

/-! ### Export of the best-solutions payload (C10)

`VisualizationExporter.export_best_solutions_data`
(src/analysis/utils.py lines 636-674).
-/

/-- The `metadata` block of the export (src/analysis/utils.py lines
660-664). -/
structure ExportMetadata where
  total_nodes : Nat
  required_nodes : Nat
  algorithms_count : Nat
deriving DecidableEq

/-- The export dict built at src/analysis/utils.py lines 654-665 (the
wall-clock `export_timestamp` is omitted). -/
structure ExportPayload where
  instanceName : String
  algorithm_folder : String
  nodes : List PlotNode
  best_solutions : List (String × SolutionTrace)
  metadata : ExportMetadata
deriving DecidableEq

/-- `export_best_solutions_data` for one instance whose visualization
payload is present (src/analysis/utils.py lines 646-674): the metadata's
`required_nodes` indexes the first best-solution trace,
`len(list(viz_data['best_solutions'].values())[0]['selected_nodes'])`
(line 662); with an empty `best_solutions` mapping that `[0]` raises
IndexError (`none`) while building the dict, before any file is written. -/
def export_best_solutions_data (nm folder : String) (viz : VizData) :
    Option ExportPayload :=
  match viz.best_solutions with
  | [] => none
  | first :: _ =>
    some { instanceName := nm
           algorithm_folder := folder
           nodes := viz.nodes
           best_solutions := viz.best_solutions
           metadata :=
             { total_nodes := viz.nodes.length
               required_nodes := first.2.selected_nodes.length
               algorithms_count := viz.best_solutions.length } }

/-- C10 (confirmed): when the instance's `best_solutions` mapping is
nonempty the export succeeds and its `required_nodes` metadata is the
number of selected nodes of the first trace — the indexing never fails
under the nonemptiness precondition — while an instance whose payload has
an empty `best_solutions` mapping raises IndexError (`none`) instead of
producing an export. -/
theorem C10_export (viz : VizData) (nm folder : String) :
    (viz.best_solutions ≠ [] →
        ∃ first rest e, viz.best_solutions = first :: rest
          ∧ export_best_solutions_data nm folder viz = some e
          ∧ e.metadata.required_nodes = first.2.selected_nodes.length
          ∧ e.best_solutions = viz.best_solutions
          ∧ e.nodes = viz.nodes)
  ∧ (viz.best_solutions = [] → export_best_solutions_data nm folder viz = none) := by
  constructor
  · intro h
    cases hb : viz.best_solutions with
    | nil => exact absurd hb h
    | cons first rest =>
      have he : export_best_solutions_data nm folder viz
          = some { instanceName := nm
                   algorithm_folder := folder
                   nodes := viz.nodes
                   best_solutions := first :: rest
                   metadata :=
                     { total_nodes := viz.nodes.length
                       required_nodes := first.2.selected_nodes.length
                       algorithms_count := (first :: rest).length } } := by
        unfold export_best_solutions_data
        rw [hb]
      refine ⟨first, rest, _, rfl, he, rfl, rfl, rfl⟩
  · intro h
    unfold export_best_solutions_data
    rw [h]

/-- The C10 witness payload: three nodes, one best solution over the
selected nodes `{3, 7, 9}`. -/
def c10Viz : VizData :=
  ⟨[⟨3, 0, 0, 1⟩, ⟨7, 1, 1, 2⟩, ⟨9, 2, 2, 3⟩],
   [("greedy", ⟨[3, 7, 9], [3, 7, 9], 100, 80, 20, true, ""⟩)]⟩

/-- The C10 witness payload with an empty `best_solutions` mapping. -/
def c10VizEmpty : VizData := ⟨[⟨3, 0, 0, 1⟩], []⟩

/-- C10 (witness): on the concrete payload the export succeeds with
`required_nodes = 3`; on the payload with the empty mapping it returns the
IndexError outcome. -/
theorem C10_witness :
    (∃ first rest e, c10Viz.best_solutions = first :: rest
       ∧ export_best_solutions_data "TSPA" "greedy" c10Viz = some e
       ∧ e.metadata.required_nodes = first.2.selected_nodes.length
       ∧ e.best_solutions = c10Viz.best_solutions
       ∧ e.nodes = c10Viz.nodes)
  ∧ export_best_solutions_data "TSPA" "greedy" c10VizEmpty = none :=
  ⟨(C10_export c10Viz "TSPA" "greedy").1 (by simp [c10Viz]),
   (C10_export c10VizEmpty "TSPA" "greedy").2 rfl⟩
